import Mathlib

set_option maxHeartbeats 1000000
set_option maxRecDepth 8192

namespace RagTime

/-- Value stored in one field of a search-result record: a string, a number,
or null.  A missing cell in the normalized table is also represented as null,
matching NaN in pandas. -/
inductive PValue where
  | str (s : String)
  | num (n : Int)
  | null
deriving DecidableEq

/-- Errors a notebook cell can raise and propagate (neither notebook has any
try/except, so every error escapes unchanged). -/
inductive PyErr where
  | keyError (k : String)
  | typeError
  | indexError
deriving DecidableEq

/-- A search-result record as returned by the service: an association list of
field names to values, with distinct keys. -/
abbrev Rec := List (String × PValue)

/-- A pandas DataFrame produced by json_normalize: the ordered column list
together with the underlying records; cell (r, k) is the value of key k in
record r, or null when the key is absent. -/
structure DataFrame where
  cols : List String
  recs : List Rec
deriving DecidableEq

/-- Lookup of a key in a record (first occurrence). -/
def lookupV : Rec → String → Option PValue
  | [], _ => none
  | (k0, v) :: r, k => if k0 = k then some v else lookupV r k

/-- Cell of the normalized table: value of the key, or null when absent. -/
def cellVal (r : Rec) (k : String) : PValue :=
  (lookupV r k).getD PValue.null

/-- Keys of a record, in order. -/
def recKeys (r : Rec) : List String := r.map Prod.fst

/-- All keys of all records, in record order. -/
def allKeys : List Rec → List String
  | [] => []
  | r :: rs => recKeys r ++ allKeys rs

/-- First-appearance deduplication of a key list, as pandas json_normalize
orders its columns. -/
def dedupKeys (seen : List String) : List String → List String
  | [] => []
  | k :: ks => if k ∈ seen then dedupKeys seen ks else k :: dedupKeys (k :: seen) ks

/-- Embeds pd.json_normalize(list(results)): columns are the record keys in
first-appearance order; the rows are the records, absent keys reading as null. -/
def json_normalize (recs : List Rec) : DataFrame :=
  ⟨dedupKeys [] (allKeys recs), recs⟩

/-- True when some record has a non-null value in column k. -/
def colNonNull (recs : List Rec) (k : String) : Bool :=
  recs.any (fun r => decide (cellVal r k ≠ PValue.null))

/-- Embeds .dropna(axis=1, how=all): keep exactly the columns that hold at
least one non-null value. -/
def dropnaAll (df : DataFrame) : DataFrame :=
  ⟨df.cols.filter (fun k => colNonNull df.recs k), df.recs⟩

/-- Embeds the lambda c: c[:300] + ... if len(c) > 300 else c applied to the
chunk column by display_results. -/
def truncStr (c : String) : String :=
  if 300 < c.length then c.take 300 ++ "..." else c

/-- The chunk-cell transform: Python len() and slicing need a string, any
other cell value raises TypeError. -/
def truncCell : PValue → Except PyErr PValue
  | PValue.str s => .ok (PValue.str (truncStr s))
  | _ => .error PyErr.typeError

/-- Replace the value of key k in a record (append when absent, as a column
assignment materialises the column). -/
def setVal : Rec → String → PValue → Rec
  | [], k, v => [(k, v)]
  | (k0, v0) :: r, k, v =>
    if k0 = k then (k0, v) :: r else (k0, v0) :: setVal r k v

/-- Apply the chunk truncation to every row, stopping at the first failing
row as pandas apply does. -/
def truncRecs : List Rec → Except PyErr (List Rec)
  | [] => .ok []
  | r :: rs =>
    match truncCell (cellVal r "chunk") with
    | .error e => .error e
    | .ok v =>
      match truncRecs rs with
      | .error e => .error e
      | .ok rs2 => .ok (setVal r "chunk" v :: rs2)

/-- Embeds df[chunk] = df[chunk].apply(...): reading a column that is not
present raises KeyError, otherwise every row is transformed. -/
def applyTrunc (df : DataFrame) : Except PyErr DataFrame :=
  if "chunk" ∈ df.cols then
    match truncRecs df.recs with
    | .error e => .error e
    | .ok recs2 => .ok ⟨df.cols, recs2⟩
  else .error (PyErr.keyError "chunk")

/-- The first_cols list of display_results. -/
def first_cols : List String := ["title", "chunk", "@search.score"]

/-- Embeds df[ks]: column selection raises KeyError when a requested column
is not in the frame. -/
def selectCols (df : DataFrame) (ks : List String) : Except PyErr DataFrame :=
  if ks.all (fun k => decide (k ∈ df.cols)) then .ok ⟨ks, df.recs⟩
  else .error (PyErr.keyError "not in index")

/-- The reordered column list first_cols + [col for col in df.columns if col
not in first_cols]. -/
def reorderedCols (cols : List String) : List String :=
  first_cols ++ cols.filter (fun c => decide (c ∉ first_cols))

/-- Embeds display_results of the search notebook: normalize the results,
drop all-null columns, truncate the chunk column, and reorder the columns
with title, chunk, @search.score first.  Styling is display-only and is not
modelled. -/
def display_results (results : List Rec) : Except PyErr DataFrame :=
  let df := dropnaAll (json_normalize results)
  match applyTrunc df with
  | .error e => .error e
  | .ok df2 => selectCols df2 (reorderedCols df2.cols)

/-- A vector query passed in vector_queries: the notebooks use
VectorizableTextQuery (service-side vectorisation of a text); the SDK also
offers a query carrying a client-side vector, which the notebooks import but
never construct. -/
inductive VectorQuery where
  | vectorizableText (text : String) (k_nearest_neighbors : Nat) (fields : String)
  | vectorized (vector : List Rat) (k_nearest_neighbors : Nat) (fields : String)
deriving DecidableEq

/-- The parameters of one search_client.search call. -/
structure SearchQuery where
  search_text : Option String
  top : Option Nat
  select : Option (List String)
  vector_queries : List VectorQuery
  query_type : Option String
  semantic_configuration_name : Option String
deriving DecidableEq

/-- The query string of the search notebook. -/
def searchText : String := "Pappapermisjon i sopra steria"

/-- The keyword search call of the search notebook. -/
def keyword_query (q : String) : SearchQuery :=
  { search_text := some q, top := some 5, select := some ["title", "chunk"],
    vector_queries := [], query_type := none, semantic_configuration_name := none }

/-- The vector search call of the search notebook. -/
def vector_query (q : String) : SearchQuery :=
  { search_text := none, top := some 5, select := some ["title", "chunk"],
    vector_queries := [VectorQuery.vectorizableText q 50 "text_vector"],
    query_type := none, semantic_configuration_name := none }

/-- The hybrid search call of the search notebook. -/
def hybrid_query (q : String) : SearchQuery :=
  { search_text := some q, top := some 5, select := some ["title", "chunk"],
    vector_queries := [VectorQuery.vectorizableText q 50 "text_vector"],
    query_type := none, semantic_configuration_name := none }

/-- The hybrid + semantic ranker search call of the search notebook. -/
def semantic_query (q : String) : SearchQuery :=
  { search_text := some q, top := some 5, select := some ["title", "chunk"],
    vector_queries := [VectorQuery.vectorizableText q 50 "text_vector"],
    query_type := some "semantic",
    semantic_configuration_name := some "sopravector2-semantic-configuration" }

/-- The retrieval call of step 5 of the RAG notebook. -/
def rag_search_query (uq : String) : SearchQuery :=
  { search_text := none, top := some 3, select := none,
    vector_queries := [VectorQuery.vectorizableText uq 3 "text_vector"],
    query_type := none, semantic_configuration_name := none }

/-- The client-side vectors explicitly carried by a query (none of the
notebook queries carry one). -/
def queryVectors (q : SearchQuery) : List (List Rat) :=
  q.vector_queries.filterMap fun v =>
    match v with
    | .vectorized vec _ _ => some vec
    | _ => none

/-- Modelled from the spec: the hosted Azure AI Search service is not part of
this repository.  Per the spec it retrieves the top-k matching chunks: the
input list stands for the service-side ranked match list and the service
returns it capped at the requested top. -/
def searchService {α : Type} (ranked : List α) (q : SearchQuery) : List α :=
  match q.top with
  | some t => ranked.take t
  | none => ranked

/-- Embeds os.environ[k]: missing keys raise KeyError. -/
def os_environ (env : String → Option String) (k : String) : Except PyErr String :=
  match env k with
  | some v => .ok v
  | none => .error (PyErr.keyError k)

/-- The credential object handed to the search client. -/
inductive SearchCred where
  | keyCred (key : String)
  | defaultCred
deriving DecidableEq

/-- Embeds AzureKeyCredential(key): the SDK constructor raises TypeError when
the key is not a string (os.getenv returned None). -/
def azureKeyCredentialInit : Option String → Except PyErr SearchCred
  | some s => .ok (SearchCred.keyCred s)
  | none => .error PyErr.typeError

/-- Embeds the search notebook run up to the keyword search display: load the
environment (os.environ raising KeyError on missing variables), build the
credential, call the search SDK, and display the results.  There is no
try/except, so the Except value threads every error through unchanged. -/
def notebook1Run (env : String → Option String)
    (sdk : SearchQuery → Except PyErr (List Rec)) : Except PyErr DataFrame :=
  match os_environ env "AZURE_SEARCH_SERVICE_ENDPOINT" with
  | .error e => .error e
  | .ok _endpoint =>
    match os_environ env "AZURE_SEARCH_INDEX" with
    | .error e => .error e
    | .ok _index_name =>
      match azureKeyCredentialInit (env "AZURE_SEARCH_ADMIN_KEY") with
      | .error e => .error e
      | .ok _credential =>
        match sdk (keyword_query searchText) with
        | .error e => .error e
        | .ok results => display_results results

/-- One retrieved document of the RAG notebook, as printed by step 5. -/
structure SearchResult where
  chunk_id : String
  title : String
  chunk : String
deriving DecidableEq

/-- The paged iterator returned by search_client.search: a one-shot iterator
over the remaining items; a for loop consumes it and a second for loop over
the same object yields nothing. -/
structure PagedResults where
  remaining : List SearchResult
deriving DecidableEq

/-- The search call of step 5 hands back a fresh iterator over the retrieved
documents. -/
def searchStep (retrieved : List SearchResult) : PagedResults := ⟨retrieved⟩

/-- The step 5 print loop: formats every remaining item and leaves the
iterator exhausted. -/
def printResults (it : PagedResults) : List String × PagedResults :=
  (it.remaining.map fun r =>
      "Chunk ID: " ++ r.chunk_id ++ "\nTitle: " ++ r.title ++ "\nText: " ++ r.chunk ++ "\n",
    ⟨[]⟩)

/-- The step 6 context loop: concatenates chunk + two newlines over every
remaining item of the iterator it is given, leaving it exhausted. -/
def collectContext (it : PagedResults) : String × PagedResults :=
  (it.remaining.foldl (fun acc r => acc ++ r.chunk ++ "\n\n") "", ⟨[]⟩)

/-- The concatenation, in retrieval order, of every retrieved chunk followed
by two newlines: what the spec says the grounding context is. -/
def contextOf (rs : List SearchResult) : String :=
  rs.foldl (fun acc r => acc ++ r.chunk ++ "\n\n") ""

/-- The f-string SYSTEM_MESSAGE of step 6, with the context embedded
verbatim. -/
def SYSTEM_MESSAGE (context : String) : String :=
  "\nDu er en AI Assistent som har innsikt i Sopra Steria sin personalhåndbok vedlagt som context.\nVær kortfattet og detaljert i svarene dine, bruk kun informasjon fra fra personalhåndboken.\n\nContext:\n"
    ++ context ++ "\n"

/-- One chat message of the completion request. -/
structure ChatMessage where
  role : String
  content : String
deriving DecidableEq

/-- The user question of the RAG notebook. -/
def user_question : String := "Hvor ofte kan jeg bestille ny telefon?"

/-- Embeds steps 5 and 6 of the RAG notebook: the search returns a one-shot
iterator, the step 5 print loop consumes it, the step 6 context loop folds
over what is left, and the chat request carries the resulting SYSTEM_MESSAGE
and the unchanged user question. -/
def ragMessages (retrieved : List SearchResult) (uq : String) : List ChatMessage :=
  let search_results := searchStep retrieved
  let step5 := printResults search_results
  let step6 := collectContext step5.2
  [⟨"system", SYSTEM_MESSAGE step6.1⟩, ⟨"user", uq⟩]

/-- One element of the embeddings API response data list. -/
structure EmbeddingItem where
  embedding : List Rat
deriving DecidableEq

/-- The embeddings API response shape. -/
structure EmbeddingResponse where
  data : List EmbeddingItem
deriving DecidableEq

/-- Embeds get_embedding(text) = client.embeddings.create(...).data[0].embedding,
with the hosted embeddings API passed in as a function; indexing an empty
data list raises IndexError. -/
def get_embedding (api : String → EmbeddingResponse) (text : String) :
    Except PyErr (List Rat) :=
  match (api text).data with
  | [] => .error PyErr.indexError
  | d :: _ => .ok d.embedding

/-- The Azure OpenAI client as constructed by the RAG notebook setup cell. -/
inductive AOAIClient where
  | withKey (api_key : String) (azure_endpoint : Option String) (api_version : String)
  | withToken (azure_endpoint : Option String) (api_version : String)
deriving DecidableEq

/-- True when the client was built from an API key. -/
def AOAIClient.usesApiKey : AOAIClient → Bool
  | .withKey _ _ _ => true
  | .withToken _ _ => false

/-- Embeds the if AZURE_OPENAI_API_KEY: branch of the RAG notebook: a truthy
(non-empty) key selects the api_key constructor, otherwise the default-
credential token provider is used. -/
def openai_client (env : String → Option String) : AOAIClient :=
  match env "AZURE_OPENAI_API_KEY" with
  | some s =>
    if s = "" then AOAIClient.withToken (env "AZURE_OPENAI_ENDPOINT") "2024-10-21"
    else AOAIClient.withKey s (env "AZURE_OPENAI_ENDPOINT") "2024-10-21"
  | none => AOAIClient.withToken (env "AZURE_OPENAI_ENDPOINT") "2024-10-21"

/-- True when the search credential is an AzureKeyCredential. -/
def SearchCred.usesKey : SearchCred → Bool
  | .keyCred _ => true
  | .defaultCred => false

/-- Embeds the if AZURE_SEARCH_ADMIN_KEY: branch of the RAG notebook: a
truthy (non-empty) admin key selects AzureKeyCredential, otherwise
DefaultAzureCredential. -/
def rag_search_cred (env : String → Option String) : SearchCred :=
  match env "AZURE_SEARCH_ADMIN_KEY" with
  | some s => if s = "" then SearchCred.defaultCred else SearchCred.keyCred s
  | none => SearchCred.defaultCred

/-- Lookup misses exactly when the key is not among the record keys. -/
theorem lookupV_eq_none_iff (r : Rec) (k : String) :
    lookupV r k = none ↔ k ∉ recKeys r := by
  induction r with
  | nil => simp [lookupV, recKeys]
  | cons p r ih =>
    obtain ⟨k0, v⟩ := p
    by_cases h : k0 = k
    · subst h
      simp [lookupV, recKeys]
    · simp [lookupV, h, recKeys, ih, Ne.symm h]

/-- A successful lookup shows the key is present. -/
theorem mem_of_lookupV_some {r : Rec} {k : String} {v : PValue}
    (h : lookupV r k = some v) : k ∈ recKeys r := by
  by_contra hk
  rw [← lookupV_eq_none_iff] at hk
  rw [h] at hk
  cases hk

/-- A non-null cell comes from a successful lookup of a non-null value. -/
theorem cellVal_ne_null_iff (r : Rec) (k : String) :
    cellVal r k ≠ PValue.null ↔ ∃ v, lookupV r k = some v ∧ v ≠ PValue.null := by
  unfold cellVal
  cases hl : lookupV r k with
  | none => simp
  | some v => simp

/-- Membership in the concatenated key list. -/
theorem mem_allKeys_iff (recs : List Rec) (k : String) :
    k ∈ allKeys recs ↔ ∃ r ∈ recs, k ∈ recKeys r := by
  induction recs with
  | nil => simp [allKeys]
  | cons r rs ih => simp [allKeys, ih]

/-- Deduplication only drops elements. -/
theorem mem_of_mem_dedupKeys (l : List String) :
    ∀ seen x, x ∈ dedupKeys seen l → x ∈ l := by
  induction l with
  | nil => intro seen x h; simp [dedupKeys] at h
  | cons k ks ih =>
    intro seen x h
    by_cases hk : k ∈ seen
    · rw [dedupKeys, if_pos hk] at h
      exact List.mem_cons_of_mem _ (ih seen x h)
    · rw [dedupKeys, if_neg hk] at h
      rcases List.mem_cons.mp h with h1 | h1
      · exact h1 ▸ List.mem_cons_self _ _
      · exact List.mem_cons_of_mem _ (ih (k :: seen) x h1)

/-- Deduplication keeps every unseen element of the list. -/
theorem mem_dedupKeys_of_mem (l : List String) :
    ∀ seen x, x ∈ l → x ∉ seen → x ∈ dedupKeys seen l := by
  induction l with
  | nil => intro seen x h; simp at h
  | cons k ks ih =>
    intro seen x hx hs
    by_cases hk : k ∈ seen
    · rw [dedupKeys, if_pos hk]
      rcases List.mem_cons.mp hx with h1 | h1
      · exact absurd (h1 ▸ hk) hs
      · exact ih seen x h1 hs
    · rw [dedupKeys, if_neg hk]
      by_cases hxk : x = k
      · exact hxk ▸ List.mem_cons_self _ _
      · rcases List.mem_cons.mp hx with h1 | h1
        · exact absurd h1 hxk
        · refine List.mem_cons_of_mem _ (ih (k :: seen) x h1 ?_)
          intro hmem
          rcases List.mem_cons.mp hmem with h2 | h2
          · exact hxk h2
          · exact hs h2

/-- A key with a non-null value in some record survives normalization and
the all-null column drop. -/
theorem key_mem_dropna_cols {results : List Rec} {r : Rec} {k : String}
    (hr : r ∈ results) (hnn : cellVal r k ≠ PValue.null) :
    k ∈ (dropnaAll (json_normalize results)).cols := by
  obtain ⟨v, hv, _⟩ := (cellVal_ne_null_iff r k).mp hnn
  have hk : k ∈ recKeys r := mem_of_lookupV_some hv
  have h1 : k ∈ allKeys results := (mem_allKeys_iff results k).mpr ⟨r, hr, hk⟩
  have h2 : k ∈ dedupKeys [] (allKeys results) :=
    mem_dedupKeys_of_mem _ [] k h1 (by simp)
  have h3 : colNonNull results k = true := by
    unfold colNonNull
    rw [List.any_eq_true]
    exact ⟨r, hr, by simp [hnn]⟩
  show k ∈ (dedupKeys [] (allKeys results)).filter (fun c => colNonNull results c)
  rw [List.mem_filter]
  exact ⟨h2, h3⟩

/-- A column of the dropped frame holds a non-null value somewhere. -/
theorem dropna_cols_nonnull {results : List Rec} {k : String}
    (h : k ∈ (dropnaAll (json_normalize results)).cols) :
    ∃ r ∈ results, cellVal r k ≠ PValue.null := by
  have h2 : colNonNull results k = true :=
    (List.mem_filter.mp h).2
  unfold colNonNull at h2
  rw [List.any_eq_true] at h2
  obtain ⟨r, hr, hd⟩ := h2
  exact ⟨r, hr, of_decide_eq_true hd⟩

/-- A column of the dropped frame is a key of some record. -/
theorem dropna_cols_key {results : List Rec} {k : String}
    (h : k ∈ (dropnaAll (json_normalize results)).cols) :
    ∃ r ∈ results, k ∈ recKeys r := by
  have h1 : k ∈ dedupKeys [] (allKeys results) := (List.mem_filter.mp h).1
  exact (mem_allKeys_iff results k).mp (mem_of_mem_dedupKeys _ [] k h1)

/-- Overwriting one key leaves every other lookup unchanged. -/
theorem lookupV_setVal_ne (r : Rec) (k0 k : String) (v : PValue) (h : k ≠ k0) :
    lookupV (setVal r k0 v) k = lookupV r k := by
  induction r with
  | nil => simp [setVal, lookupV, Ne.symm h]
  | cons p r ih =>
    obtain ⟨k1, v1⟩ := p
    by_cases h1 : k1 = k0
    · subst h1
      have h2 : ¬ k1 = k := fun he => h he.symm
      simp [setVal, lookupV, h2]
    · by_cases h2 : k1 = k
      · simp [setVal, h1, lookupV, h2, h]
      · simp [setVal, h1, lookupV, h2, ih]

/-- Overwriting a key makes its lookup return the new value. -/
theorem lookupV_setVal_self (r : Rec) (k : String) (v : PValue) :
    lookupV (setVal r k v) k = some v := by
  induction r with
  | nil => simp [setVal, lookupV]
  | cons p r ih =>
    obtain ⟨k1, v1⟩ := p
    by_cases h1 : k1 = k
    · simp [setVal, h1, lookupV]
    · simp [setVal, h1, lookupV, ih]

/-- Row truncation succeeds exactly on rows whose chunk cell is a string;
it yields the truncated record rows. -/
theorem truncRecs_ok_chunk_str :
    ∀ (rs rs2 : List Rec), truncRecs rs = .ok rs2 →
      ∀ r ∈ rs, ∃ s, cellVal r "chunk" = PValue.str s := by
  intro rs
  induction rs with
  | nil =>
    intro rs2 _ r hr
    simp at hr
  | cons r0 rs ih =>
    intro rs2 h r hr
    cases hc : cellVal r0 "chunk" with
    | str s =>
      cases ht : truncRecs rs with
      | error e => simp [truncRecs, hc, truncCell, ht] at h
      | ok rs3 =>
        rcases List.mem_cons.mp hr with h1 | h1
        · exact ⟨s, h1 ▸ hc⟩
        · exact ih rs3 ht r h1
    | num n => simp [truncRecs, hc, truncCell] at h
    | null => simp [truncRecs, hc, truncCell] at h

/-- When every chunk cell is a string, row truncation succeeds. -/
theorem truncRecs_ok_of_chunk_str :
    ∀ rs : List Rec, (∀ r ∈ rs, ∃ s, cellVal r "chunk" = PValue.str s) →
      ∃ rs2, truncRecs rs = .ok rs2 := by
  intro rs
  induction rs with
  | nil => intro _; exact ⟨[], rfl⟩
  | cons r0 rs ih =>
    intro h
    obtain ⟨s, hs⟩ := h r0 (List.mem_cons_self r0 rs)
    obtain ⟨rs2, hrs2⟩ := ih (fun r hr => h r (List.mem_cons_of_mem _ hr))
    exact ⟨setVal r0 "chunk" (PValue.str (truncStr s)) :: rs2,
      by simp [truncRecs, hs, truncCell, hrs2]⟩

/-- Row truncation truncates exactly the chunk cell of every row and leaves
every other cell unchanged. -/
theorem truncRecs_forall2 :
    ∀ (rs rs2 : List Rec), truncRecs rs = .ok rs2 →
      List.Forall₂ (fun r r2 =>
        (∀ k, k ≠ "chunk" → cellVal r2 k = cellVal r k) ∧
        ∃ s, cellVal r "chunk" = PValue.str s ∧
          cellVal r2 "chunk" = PValue.str (truncStr s)) rs rs2 := by
  intro rs
  induction rs with
  | nil =>
    intro rs2 h
    simp [truncRecs] at h
    subst h
    exact List.Forall₂.nil
  | cons r0 rs ih =>
    intro rs2 h
    cases hc : cellVal r0 "chunk" with
    | str s =>
      cases ht : truncRecs rs with
      | error e => simp [truncRecs, hc, truncCell, ht] at h
      | ok rs3 =>
        simp [truncRecs, hc, truncCell, ht] at h
        subst h
        refine List.Forall₂.cons ⟨?_, s, hc, ?_⟩ (ih rs3 ht)
        · intro k hk
          unfold cellVal
          rw [lookupV_setVal_ne _ _ _ _ hk]
        · unfold cellVal
          rw [lookupV_setVal_self]
          rfl
    | num n => simp [truncRecs, hc, truncCell] at h
    | null => simp [truncRecs, hc, truncCell] at h

/-- Column selection fails with KeyError when a requested column is
missing. -/
theorem selectCols_error {df : DataFrame} {ks : List String} {k : String}
    (hk : k ∈ ks) (hnot : k ∉ df.cols) :
    selectCols df ks = .error (PyErr.keyError "not in index") := by
  have hcond : ¬ (ks.all (fun k2 => decide (k2 ∈ df.cols)) = true) := by
    intro hall
    rw [List.all_eq_true] at hall
    exact hnot (of_decide_eq_true (hall k hk))
  unfold selectCols
  rw [if_neg hcond]

/-- Column selection succeeds when every requested column is present. -/
theorem selectCols_ok {df : DataFrame} {ks : List String}
    (h : ∀ k ∈ ks, k ∈ df.cols) :
    selectCols df ks = .ok ⟨ks, df.recs⟩ := by
  have hcond : ks.all (fun k2 => decide (k2 ∈ df.cols)) = true := by
    rw [List.all_eq_true]
    intro k hk
    exact decide_eq_true (h k hk)
  unfold selectCols
  rw [if_pos hcond]

/-- A successful column selection forces every requested column to be
present and fixes the resulting frame. -/
theorem selectCols_ok_mem {df : DataFrame} {ks : List String} {df2 : DataFrame}
    (h : selectCols df ks = .ok df2) :
    (∀ k ∈ ks, k ∈ df.cols) ∧ df2 = ⟨ks, df.recs⟩ := by
  unfold selectCols at h
  by_cases hc : ks.all (fun k2 => decide (k2 ∈ df.cols)) = true
  · rw [if_pos hc] at h
    injection h with h
    rw [List.all_eq_true] at hc
    exact ⟨fun k hk => of_decide_eq_true (hc k hk), h.symm⟩
  · rw [if_neg hc] at h
    cases h

/-- A successful truncation stage forces the chunk column to be present and
fixes the resulting frame. -/
theorem applyTrunc_ok_elim {df : DataFrame} {df2 : DataFrame}
    (h : applyTrunc df = .ok df2) :
    "chunk" ∈ df.cols ∧ ∃ rs2, truncRecs df.recs = .ok rs2 ∧ df2 = ⟨df.cols, rs2⟩ := by
  unfold applyTrunc at h
  by_cases hc : "chunk" ∈ df.cols
  · rw [if_pos hc] at h
    cases ht : truncRecs df.recs with
    | error e => rw [ht] at h; cases h
    | ok rs2 =>
      rw [ht] at h
      injection h with h
      exact ⟨hc, rs2, rfl, h.symm⟩
  · rw [if_neg hc] at h
    cases h

/-- The truncation stage succeeds on a frame with a chunk column whose
records all carry string chunks. -/
theorem applyTrunc_ok_intro {df : DataFrame}
    (hc : "chunk" ∈ df.cols) {rs2 : List Rec}
    (ht : truncRecs df.recs = .ok rs2) :
    applyTrunc df = .ok ⟨df.cols, rs2⟩ := by
  unfold applyTrunc
  rw [if_pos hc, ht]

/-- The display pipeline written as one match, used to peel its stages. -/
theorem display_results_eq (results : List Rec) :
    display_results results =
      match applyTrunc (dropnaAll (json_normalize results)) with
      | .error e => .error e
      | .ok df2 => selectCols df2 (reorderedCols df2.cols) := rfl

/-- Claim C5: the hybrid search invocation derives both of its ranking
signals from one and the same query string: it passes that string as the
keyword search_text and also wraps the identical string in a
VectorizableTextQuery with k_nearest_neighbors 50 over the text_vector field
in vector_queries. -/
theorem hybrid_single_query_string (q : String) :
    (hybrid_query q).search_text = some q ∧
    (hybrid_query q).vector_queries =
      [VectorQuery.vectorizableText q 50 "text_vector"] :=
  ⟨rfl, rfl⟩

/-- Claim C6: the semantic-ranker search issues exactly the same underlying
hybrid query as the plain hybrid search, identical search_text, vector query,
top and select, differing only by query_type semantic and the semantic
configuration name. -/
theorem semantic_query_layers_reranking (q : String) :
    (semantic_query q).search_text = (hybrid_query q).search_text ∧
    (semantic_query q).vector_queries = (hybrid_query q).vector_queries ∧
    (semantic_query q).top = (hybrid_query q).top ∧
    (semantic_query q).select = (hybrid_query q).select ∧
    (semantic_query q).query_type = some "semantic" ∧
    (hybrid_query q).query_type = none ∧
    (semantic_query q).semantic_configuration_name =
      some "sopravector2-semantic-configuration" ∧
    (hybrid_query q).semantic_configuration_name = none :=
  ⟨rfl, rfl, rfl, rfl, rfl, rfl, rfl, rfl⟩

/-- Claim C2: the keyword, vector, hybrid and semantic searches each request
top 5 and the RAG retrieval requests top 3, and for every result set the
service hands back no more than the requested top-k items downstream. -/
theorem topk_bounds (q uq : String) (ranked : List Rec) (docs : List SearchResult) :
    (keyword_query q).top = some 5 ∧
    (vector_query q).top = some 5 ∧
    (hybrid_query q).top = some 5 ∧
    (semantic_query q).top = some 5 ∧
    (rag_search_query uq).top = some 3 ∧
    (searchService ranked (keyword_query q)).length ≤ 5 ∧
    (searchService ranked (vector_query q)).length ≤ 5 ∧
    (searchService ranked (hybrid_query q)).length ≤ 5 ∧
    (searchService ranked (semantic_query q)).length ≤ 5 ∧
    (searchService docs (rag_search_query uq)).length ≤ 3 := by
  refine ⟨rfl, rfl, rfl, rfl, rfl, ?_, ?_, ?_, ?_, ?_⟩ <;>
    simp [searchService, keyword_query, vector_query, hybrid_query,
      semantic_query, rag_search_query, List.length_take]

/-- Claim C1, behavior of the code: because the step 5 print loop exhausts
the one-shot paged iterator, the step 6 context loop always builds the empty
context, so the system message embeds an empty context for every retrieval,
while the user message is the unchanged question; at a concrete non-empty
retrieval this differs from embedding the concatenation of the retrieved
chunks. -/
theorem rag_grounding_context_empty :
    (∀ retrieved uq, ragMessages retrieved uq =
      [⟨"system", SYSTEM_MESSAGE ""⟩, ⟨"user", uq⟩]) ∧
    ragMessages [⟨"c1", "T", "A"⟩] user_question ≠
      [⟨"system", SYSTEM_MESSAGE (contextOf [⟨"c1", "T", "A"⟩])⟩,
        ⟨"user", user_question⟩] := by
  constructor
  · intro retrieved uq; rfl
  · decide

/-- Claim C7, counterexample: the retrieval query of the RAG notebook
carries no client-side vector at all, only a VectorizableTextQuery wrapping
the raw question text, so the vector used to retrieve documents is not
get_embedding of the user question (here evaluated against a concrete
embeddings API). -/
theorem rag_retrieval_without_client_vector :
    get_embedding (fun _ => ⟨[⟨[1, 2, 3]⟩]⟩) user_question = .ok [1, 2, 3] ∧
    queryVectors (rag_search_query user_question) = [] ∧
    (rag_search_query user_question).vector_queries ≠
      [VectorQuery.vectorized [1, 2, 3] 3 "text_vector"] := by
  refine ⟨rfl, rfl, ?_⟩
  decide

/-- Claim C7, amended: get_embedding returns the embedding of the first
element of the embeddings API response data list, and the RAG retrieval does
not use that client-side vector: it wraps the user question text itself in a
VectorizableTextQuery with k_nearest_neighbors 3 over text_vector, carrying
no explicit vector. -/
theorem get_embedding_first_and_retrieval_by_text
    (api : String → EmbeddingResponse) (text uq : String)
    (d : EmbeddingItem) (rest : List EmbeddingItem)
    (h : (api text).data = d :: rest) :
    get_embedding api text = .ok d.embedding ∧
    (rag_search_query uq).vector_queries =
      [VectorQuery.vectorizableText uq 3 "text_vector"] ∧
    queryVectors (rag_search_query uq) = [] := by
  refine ⟨?_, rfl, rfl⟩
  simp [get_embedding, h]

/-- Witness for the amended claim C7 at a concrete embeddings API response. -/
theorem get_embedding_first_and_retrieval_by_text_witness :
    ((fun _ => EmbeddingResponse.mk [EmbeddingItem.mk [5]]) "x").data
        = EmbeddingItem.mk [5] :: [] ∧
    (get_embedding (fun _ => EmbeddingResponse.mk [EmbeddingItem.mk [5]]) "x"
        = .ok [5] ∧
      (rag_search_query user_question).vector_queries =
        [VectorQuery.vectorizableText user_question 3 "text_vector"] ∧
      queryVectors (rag_search_query user_question) = []) :=
  ⟨rfl, get_embedding_first_and_retrieval_by_text
    (fun _ => EmbeddingResponse.mk [EmbeddingItem.mk [5]]) "x" user_question
    (EmbeddingItem.mk [5]) [] rfl⟩

/-- Claim C8: each API client is key-based exactly when the corresponding
environment variable is a non-empty string; when it is unset or empty the
construction falls back to the default credential. -/
theorem key_based_credentials (env : String → Option String) :
    ((openai_client env).usesApiKey = true ↔
      ∃ s, env "AZURE_OPENAI_API_KEY" = some s ∧ s ≠ "") ∧
    (∀ s, env "AZURE_OPENAI_API_KEY" = some s → s ≠ "" →
      openai_client env =
        AOAIClient.withKey s (env "AZURE_OPENAI_ENDPOINT") "2024-10-21") ∧
    (env "AZURE_OPENAI_API_KEY" = none ∨ env "AZURE_OPENAI_API_KEY" = some "" →
      openai_client env =
        AOAIClient.withToken (env "AZURE_OPENAI_ENDPOINT") "2024-10-21") ∧
    ((rag_search_cred env).usesKey = true ↔
      ∃ s, env "AZURE_SEARCH_ADMIN_KEY" = some s ∧ s ≠ "") ∧
    (∀ s, env "AZURE_SEARCH_ADMIN_KEY" = some s → s ≠ "" →
      rag_search_cred env = SearchCred.keyCred s) ∧
    (env "AZURE_SEARCH_ADMIN_KEY" = none ∨ env "AZURE_SEARCH_ADMIN_KEY" = some "" →
      rag_search_cred env = SearchCred.defaultCred) := by
  refine ⟨?_, ?_, ?_, ?_, ?_, ?_⟩
  · constructor
    · intro h
      rcases hk : env "AZURE_OPENAI_API_KEY" with _ | s
      · simp [openai_client, hk, AOAIClient.usesApiKey] at h
      · by_cases hs : s = ""
        · simp [openai_client, hk, hs, AOAIClient.usesApiKey] at h
        · exact ⟨s, rfl, hs⟩
    · rintro ⟨s, hs, hne⟩
      simp [openai_client, hs, hne, AOAIClient.usesApiKey]
  · intro s hs hne
    simp [openai_client, hs, hne]
  · rintro (h | h) <;> simp [openai_client, h]
  · constructor
    · intro h
      rcases hk : env "AZURE_SEARCH_ADMIN_KEY" with _ | s
      · simp [rag_search_cred, hk, SearchCred.usesKey] at h
      · by_cases hs : s = ""
        · simp [rag_search_cred, hk, hs, SearchCred.usesKey] at h
        · exact ⟨s, rfl, hs⟩
    · rintro ⟨s, hs, hne⟩
      simp [rag_search_cred, hs, hne, SearchCred.usesKey]
  · intro s hs hne
    simp [rag_search_cred, hs, hne]
  · rintro (h | h) <;> simp [rag_search_cred, h]

/-- Witness for claim C8 at a concrete environment holding only a non-empty
OpenAI API key. -/
theorem key_based_credentials_witness :
    ((fun k => if k = "AZURE_OPENAI_API_KEY" then some "k1" else none)
        "AZURE_OPENAI_API_KEY" = some "k1" ∧ "k1" ≠ "") ∧
    openai_client (fun k => if k = "AZURE_OPENAI_API_KEY" then some "k1" else none)
      = AOAIClient.withKey "k1"
          ((fun k => if k = "AZURE_OPENAI_API_KEY" then some "k1" else none)
            "AZURE_OPENAI_ENDPOINT") "2024-10-21" :=
  ⟨⟨by decide, by decide⟩,
    (key_based_credentials
      (fun k => if k = "AZURE_OPENAI_API_KEY" then some "k1" else none)).2.1
      "k1" (by decide) (by decide)⟩

/-- Claim C4: a missing AZURE_SEARCH_SERVICE_ENDPOINT or AZURE_SEARCH_INDEX
makes the load step raise KeyError for that variable, and an error raised by
the search SDK call propagates unchanged to the caller, there being no
try/except anywhere. -/
theorem env_key_errors_and_sdk_propagation (env : String → Option String)
    (sdk : SearchQuery → Except PyErr (List Rec)) :
    (env "AZURE_SEARCH_SERVICE_ENDPOINT" = none →
      notebook1Run env sdk = .error (PyErr.keyError "AZURE_SEARCH_SERVICE_ENDPOINT")) ∧
    (∀ v, env "AZURE_SEARCH_SERVICE_ENDPOINT" = some v →
      env "AZURE_SEARCH_INDEX" = none →
      notebook1Run env sdk = .error (PyErr.keyError "AZURE_SEARCH_INDEX")) ∧
    (∀ v1 v2 v3 e, env "AZURE_SEARCH_SERVICE_ENDPOINT" = some v1 →
      env "AZURE_SEARCH_INDEX" = some v2 →
      env "AZURE_SEARCH_ADMIN_KEY" = some v3 →
      sdk (keyword_query searchText) = .error e →
      notebook1Run env sdk = .error e) := by
  refine ⟨?_, ?_, ?_⟩
  · intro h
    simp [notebook1Run, os_environ, h]
  · intro v h1 h2
    simp [notebook1Run, os_environ, h1, h2]
  · intro v1 v2 v3 e h1 h2 h3 hsdk
    simp [notebook1Run, os_environ, azureKeyCredentialInit, h1, h2, h3, hsdk]

/-- Witness for claim C4: a concrete empty environment makes the run fail
with KeyError on the endpoint variable. -/
theorem env_key_errors_witness :
    ((fun _ => (none : Option String)) "AZURE_SEARCH_SERVICE_ENDPOINT" = none) ∧
    notebook1Run (fun _ => none) (fun _ => .ok [])
      = .error (PyErr.keyError "AZURE_SEARCH_SERVICE_ENDPOINT") :=
  ⟨rfl, (env_key_errors_and_sdk_propagation (fun _ => none) (fun _ => .ok [])).1 rfl⟩

/-- Claim C3: the chunk column transform replaces a chunk with its first 300
characters followed by three dots exactly when the chunk is strictly longer
than 300 characters, leaves chunks of length at most 300 unchanged, and the
truncation step alters no cell outside the chunk column while keeping the
column list intact. -/
theorem chunk_truncation_law (c : String) (df df2 : DataFrame) :
    (300 < c.length → truncStr c = c.take 300 ++ "...") ∧
    (c.length ≤ 300 → truncStr c = c) ∧
    (truncStr c = c.take 300 ++ "..." ↔ 300 < c.length) ∧
    (applyTrunc df = .ok df2 →
      df2.cols = df.cols ∧
      List.Forall₂ (fun r r2 =>
        (∀ k, k ≠ "chunk" → cellVal r2 k = cellVal r k) ∧
        ∃ s, cellVal r "chunk" = PValue.str s ∧
          cellVal r2 "chunk" = PValue.str (truncStr s)) df.recs df2.recs) := by
  refine ⟨?_, ?_, ?_, ?_⟩
  · intro h
    rw [truncStr, if_pos h]
  · intro h
    rw [truncStr, if_neg (by omega)]
  · constructor
    · intro h
      by_contra hn
      rw [truncStr, if_neg hn] at h
      have h3 := congrArg String.length h
      rw [String.length_append] at h3
      have h4 : (c.take 300).length = min 300 c.length := by
        rw [String.take_eq]
        show (c.data.take 300).length = min 300 c.data.length
        exact List.length_take 300 c.data
      have h5 : ("..." : String).length = 3 := rfl
      rw [h4, h5] at h3
      omega
    · intro h
      rw [truncStr, if_pos h]
  · intro h
    unfold applyTrunc at h
    by_cases hc : "chunk" ∈ df.cols
    · rw [if_pos hc] at h
      cases ht : truncRecs df.recs with
      | error e => rw [ht] at h; cases h
      | ok rs2 =>
        rw [ht] at h
        injection h with h
        subst h
        exact ⟨rfl, truncRecs_forall2 df.recs rs2 ht⟩
    · rw [if_neg hc] at h
      cases h

/-- Witness for claim C3 at a concrete short chunk and a concrete one-row
frame. -/
theorem chunk_truncation_law_witness :
    ("abc" : String).length ≤ 300 ∧ truncStr "abc" = "abc" :=
  ⟨by decide,
    (chunk_truncation_law "abc" (DataFrame.mk [] []) (DataFrame.mk [] [])).2.1
      (by decide)⟩

/-- Claim C9: display_results fails outside its narrow interface: with zero results or with the
chunk key absent from every result it raises KeyError on the chunk column;
with well-formed chunks but no title key it raises KeyError at the column
selection; and a successful run forces a non-empty result set in which the
chunk cell of every record is a string and the title and search-score keys
occur with a value. -/
theorem display_results_requires_fields :
    (∀ results : List Rec, (∀ r ∈ results, lookupV r "chunk" = none) →
      display_results results = .error (PyErr.keyError "chunk")) ∧
    (∀ results : List Rec, results ≠ [] →
      (∀ r ∈ results, ∃ s, cellVal r "chunk" = PValue.str s) →
      (∀ r ∈ results, lookupV r "title" = none) →
      display_results results = .error (PyErr.keyError "not in index")) ∧
    (∀ (results : List Rec) (df : DataFrame), display_results results = .ok df →
      results ≠ [] ∧
      (∃ r ∈ results, lookupV r "title" ≠ none) ∧
      (∀ r ∈ results, ∃ s, cellVal r "chunk" = PValue.str s) ∧
      (∃ r ∈ results, lookupV r "@search.score" ≠ none)) := by
  refine ⟨?_, ?_, ?_⟩
  · intro results h
    have hc : "chunk" ∉ (dropnaAll (json_normalize results)).cols := by
      intro hmem
      obtain ⟨r, hr, hk⟩ := dropna_cols_key hmem
      exact ((lookupV_eq_none_iff r "chunk").mp (h r hr)) hk
    rw [display_results_eq]
    rw [applyTrunc, if_neg hc]
  · intro results hne hch hti
    obtain ⟨rs2, htr⟩ := truncRecs_ok_of_chunk_str results hch
    have hti2 : "title" ∉ (dropnaAll (json_normalize results)).cols := by
      intro hmem
      obtain ⟨r, hr, hk⟩ := dropna_cols_key hmem
      exact ((lookupV_eq_none_iff r "title").mp (hti r hr)) hk
    obtain ⟨r0, hr0⟩ := List.exists_mem_of_ne_nil results hne
    obtain ⟨s0, hs0⟩ := hch r0 hr0
    have hc : "chunk" ∈ (dropnaAll (json_normalize results)).cols := by
      refine key_mem_dropna_cols hr0 ?_
      rw [hs0]
      simp
    have hat : applyTrunc (dropnaAll (json_normalize results)) =
        .ok ⟨(dropnaAll (json_normalize results)).cols, rs2⟩ :=
      applyTrunc_ok_intro hc htr
    rw [display_results_eq, hat]
    refine selectCols_error (k := "title") ?_ ?_
    · exact List.mem_append_left _ (by simp [first_cols])
    · exact hti2
  · intro results df h
    rw [display_results_eq] at h
    cases hat : applyTrunc (dropnaAll (json_normalize results)) with
    | error e => rw [hat] at h; cases h
    | ok df2 =>
      rw [hat] at h
      obtain ⟨hc, rs2, htr, hdf2⟩ := applyTrunc_ok_elim hat
      subst hdf2
      have hchunk : ∀ r ∈ results, ∃ s, cellVal r "chunk" = PValue.str s :=
        truncRecs_ok_chunk_str results rs2 htr
      have hne : results ≠ [] := by
        obtain ⟨r, hr, _⟩ := dropna_cols_key hc
        intro he
        subst he
        cases hr
      obtain ⟨hall, _⟩ := selectCols_ok_mem h
      have hTmem : "title" ∈ (dropnaAll (json_normalize results)).cols :=
        hall "title" (List.mem_append_left _ (by simp [first_cols]))
      have hSmem : "@search.score" ∈ (dropnaAll (json_normalize results)).cols :=
        hall "@search.score" (List.mem_append_left _ (by simp [first_cols]))
      obtain ⟨rt, hrt, hrtn⟩ := dropna_cols_nonnull hTmem
      obtain ⟨rsc, hrsc, hrscn⟩ := dropna_cols_nonnull hSmem
      obtain ⟨vt, hvt, _⟩ := (cellVal_ne_null_iff _ _).mp hrtn
      obtain ⟨vs, hvs, _⟩ := (cellVal_ne_null_iff _ _).mp hrscn
      exact ⟨hne, ⟨rt, hrt, by rw [hvt]; simp⟩, hchunk,
        ⟨rsc, hrsc, by rw [hvs]; simp⟩⟩

/-- Witness for claim C9: on a concrete result set without a chunk field the
display fails with KeyError on the chunk column. -/
theorem display_results_requires_fields_witness :
    (∀ r ∈ ([[("title", PValue.str "T")]] : List Rec), lookupV r "chunk" = none) ∧
    display_results [[("title", PValue.str "T")]]
      = .error (PyErr.keyError "chunk") :=
  ⟨by decide, display_results_requires_fields.1 [[("title", PValue.str "T")]] (by decide)⟩

/-- Claim C10: on a non-empty result set whose records carry a string chunk
and non-null title and search score, display_results succeeds, places title,
chunk and @search.score first in exactly that order, appends the remaining
kept columns in their original relative order, and drops a column only when
all of its values are null. -/
theorem display_results_column_order (results : List Rec)
    (hne : results ≠ [])
    (hch : ∀ r ∈ results, ∃ s, cellVal r "chunk" = PValue.str s)
    (hti : ∃ r ∈ results, cellVal r "title" ≠ PValue.null)
    (hsc : ∃ r ∈ results, cellVal r "@search.score" ≠ PValue.null) :
    ∃ df, display_results results = .ok df ∧
      df.cols = ["title", "chunk", "@search.score"] ++
        (dropnaAll (json_normalize results)).cols.filter
          (fun c => decide (c ∉ first_cols)) ∧
      (∀ c ∈ (json_normalize results).cols, c ∉ df.cols →
        colNonNull results c = false) := by
  obtain ⟨rs2, htr⟩ := truncRecs_ok_of_chunk_str results hch
  obtain ⟨r0, hr0⟩ := List.exists_mem_of_ne_nil results hne
  obtain ⟨s0, hs0⟩ := hch r0 hr0
  have hc : "chunk" ∈ (dropnaAll (json_normalize results)).cols := by
    refine key_mem_dropna_cols hr0 ?_
    rw [hs0]
    simp
  obtain ⟨rt, hrt, hrtn⟩ := hti
  have hT : "title" ∈ (dropnaAll (json_normalize results)).cols :=
    key_mem_dropna_cols hrt hrtn
  obtain ⟨rsc, hrsc, hrscn⟩ := hsc
  have hS : "@search.score" ∈ (dropnaAll (json_normalize results)).cols :=
    key_mem_dropna_cols hrsc hrscn
  have hat : applyTrunc (dropnaAll (json_normalize results)) =
      .ok ⟨(dropnaAll (json_normalize results)).cols, rs2⟩ :=
    applyTrunc_ok_intro hc htr
  have hsel : selectCols ⟨(dropnaAll (json_normalize results)).cols, rs2⟩
      (reorderedCols (dropnaAll (json_normalize results)).cols)
      = .ok ⟨reorderedCols (dropnaAll (json_normalize results)).cols, rs2⟩ := by
    refine selectCols_ok ?_
    intro k hk
    rcases List.mem_append.mp hk with h1 | h1
    · rcases List.mem_cons.mp h1 with h2 | h1
      · exact h2 ▸ hT
      rcases List.mem_cons.mp h1 with h2 | h1
      · exact h2 ▸ hc
      rcases List.mem_cons.mp h1 with h2 | h1
      · exact h2 ▸ hS
      · cases h1
    · exact (List.mem_filter.mp h1).1
  refine ⟨⟨reorderedCols (dropnaAll (json_normalize results)).cols, rs2⟩, ?_, ?_, ?_⟩
  · rw [display_results_eq, hat]
    exact hsel
  · rfl
  · intro c hcm hcnot
    by_contra hnn
    have hnn2 : colNonNull results c = true := by
      cases hb : colNonNull results c
      · exact absurd hb hnn
      · rfl
    have hmem : c ∈ (dropnaAll (json_normalize results)).cols := by
      show c ∈ (dedupKeys [] (allKeys results)).filter (fun k => colNonNull results k)
      rw [List.mem_filter]
      exact ⟨hcm, hnn2⟩
    by_cases hf : c ∈ first_cols
    · exact hcnot (List.mem_append_left _ hf)
    · refine hcnot (List.mem_append_right _ ?_)
      rw [List.mem_filter]
      exact ⟨hmem, decide_eq_true hf⟩

/-- Witness for claim C10 at a concrete result set with one extra all-null
column. -/
theorem display_results_column_order_witness :
    (([[("title", PValue.str "T"), ("chunk", PValue.str "abc"),
        ("@search.score", PValue.num 1), ("extra", PValue.null)]] : List Rec) ≠ []) ∧
    (∃ df, display_results
        [[("title", PValue.str "T"), ("chunk", PValue.str "abc"),
          ("@search.score", PValue.num 1), ("extra", PValue.null)]] = .ok df ∧
      df.cols = ["title", "chunk", "@search.score"] ++
        (dropnaAll (json_normalize
          [[("title", PValue.str "T"), ("chunk", PValue.str "abc"),
            ("@search.score", PValue.num 1), ("extra", PValue.null)]])).cols.filter
          (fun c => decide (c ∉ first_cols)) ∧
      (∀ c ∈ (json_normalize
          [[("title", PValue.str "T"), ("chunk", PValue.str "abc"),
            ("@search.score", PValue.num 1), ("extra", PValue.null)]]).cols,
        c ∉ df.cols →
        colNonNull
          [[("title", PValue.str "T"), ("chunk", PValue.str "abc"),
            ("@search.score", PValue.num 1), ("extra", PValue.null)]] c = false)) :=
  ⟨by decide,
    display_results_column_order
      [[("title", PValue.str "T"), ("chunk", PValue.str "abc"),
        ("@search.score", PValue.num 1), ("extra", PValue.null)]]
      (by decide)
      (fun r hr => by
        rcases List.mem_cons.mp hr with h | h
        · exact ⟨"abc", by rw [h]; decide⟩
        · cases h)
      ⟨_, List.mem_cons_self _ _, by decide⟩
      ⟨_, List.mem_cons_self _ _, by decide⟩⟩

end RagTime
